import Mathlib

/-!
Shallow embedding of the Ollama API gateway (`src/main.py`).

Every FastAPI handler in `main.py` performs at most one outbound HTTP call to
the upstream Ollama daemon and then maps the outcome of that call onto an HTTP
response.  We embed each handler as a pure function whose extra argument is the
outcome of that single upstream exchange, expressed as an inductive type whose
constructors mirror the `try`/`except` arms of the Python code:

  * a completed HTTP exchange (status code plus body),
  * an `httpx.RequestError` (transport failure),
  * any other exception (the generic `except Exception` arm).

A handler either returns a response body (FastAPI then replies HTTP 200) or
raises an `HTTPException` carrying a status code and a `detail` string; we
embed this with `Except HTTPException α`.  Wall-clock time is embedded by
passing the values of the two `time.time()` samples as rational parameters.
-/

/-- Embeds `fastapi.HTTPException` as raised throughout `src/main.py`:
a status code together with a human-readable `detail` string. -/
structure HTTPException where
  status_code : Nat
  detail : String
  deriving Repr, DecidableEq

/-- Embeds the constant `OLLAMA_BASE_URL` of `src/main.py` line 59. -/
def OLLAMA_BASE_URL : String := "http://localhost:11434"

/-- Embeds the pydantic request model `OllamaRequest` of `src/main.py`
lines 11-14: `model : str`, `prompt : str`, `stream : bool = False`. -/
structure OllamaRequest where
  model : String
  prompt : String
  stream : Bool
  deriving Repr, DecidableEq

/-- An inbound JSON body for `POST /api/generate` before pydantic validation:
each field is present or absent. -/
structure InboundGenerateBody where
  model : Option String
  prompt : Option String
  stream : Option Bool
  deriving Repr, DecidableEq

/-- Embeds pydantic validation of `OllamaRequest` (`src/main.py` lines 11-14):
`model` and `prompt` are required `str` fields with no further constraint
(in particular no non-emptiness check), and `stream` defaults to `False`
when absent. -/
def OllamaRequest.validate (body : InboundGenerateBody) :
    Except String OllamaRequest :=
  match body.model, body.prompt with
  | some m, some p => .ok { model := m, prompt := p, stream := body.stream.getD false }
  | none, _ => .error "field required: model"
  | _, none => .error "field required: prompt"

/-- The value actually returned by `generate_text` (`src/main.py` lines 61-74).
The handler performs no upstream call at all: when `request.stream` is true it
returns `StreamingResponse()` with no content generator, and otherwise it
executes a bare `return`, i.e. returns `None`. -/
inductive GenerateRawResult where
  | emptyStreamingResponse
  | noneReturn
  deriving Repr, DecidableEq

/-- Embeds `generate_text` (`src/main.py` lines 61-74).  The body is an
`if request.stream` with a contentless `StreamingResponse()` in the true
branch and a bare `return` in the false branch; no `httpx` request is issued,
so the result cannot depend on any upstream response. -/
def generate_text (request : OllamaRequest) : GenerateRawResult :=
  if request.stream then .emptyStreamingResponse else .noneReturn

/-- Outcome of the single upstream `GET {OLLAMA_BASE_URL}/api/tags` probe made
by `health_check` and `test_ollama_connectivity`: a completed HTTP exchange
with a status code and body text, an `httpx.RequestError`, or any other
exception. -/
inductive UpstreamOutcome where
  | response (status : Nat) (text : String)
  | transportError (msg : String)
  | otherError (msg : String)
  deriving Repr, DecidableEq

/-- True exactly when the probe completed with HTTP 200. -/
def UpstreamOutcome.ok200 : UpstreamOutcome → Bool
  | .response s _ => s == 200
  | _ => false

/-- Embeds the response model `HealthResponse` (`src/main.py` lines 23-27). -/
structure HealthResponse where
  status : String
  timestamp : String
  ollama_connected : Bool
  ollama_url : String
  deriving Repr, DecidableEq

/-- Embeds `health_check` (`src/main.py` lines 76-98): probe
`GET /api/tags`; `ollama_connected` becomes true only when the probe returns
status 200; the bare `except:` swallows every exception, leaving
`ollama_connected = False`.  The handler always returns normally (HTTP 200). -/
def health_check (timestamp : String) (probe : UpstreamOutcome) :
    Except HTTPException HealthResponse :=
  let ollama_connected :=
    match probe with
    | .response s _ => s == 200
    | .transportError _ => false
    | .otherError _ => false
  .ok { status := "healthy", timestamp := timestamp,
        ollama_connected := ollama_connected, ollama_url := OLLAMA_BASE_URL }

/-- Banker's rounding to the nearest integer (ties to even), the rounding mode
of Python's built-in `round`. -/
def roundHalfEven (q : ℚ) : ℤ :=
  if q - ⌊q⌋ < 1/2 then ⌊q⌋
  else if 1/2 < q - ⌊q⌋ then ⌊q⌋ + 1
  else if ⌊q⌋ % 2 = 0 then ⌊q⌋ else ⌊q⌋ + 1

/-- Embeds Python's `round(x, 2)`: round to two decimal places. -/
def round2 (q : ℚ) : ℚ := (roundHalfEven (q * 100) : ℚ) / 100

/-- Embeds the response model `OllamaConnectivityResponse`
(`src/main.py` lines 30-34). -/
structure OllamaConnectivityResponse where
  connected : Bool
  ollama_url : String
  response_time_ms : Option ℚ
  error_message : Option String
  deriving Repr, DecidableEq

/-- Embeds `test_ollama_connectivity` (`src/main.py` lines 100-143).
`start_time` and `end_time` are the two `time.time()` samples; every arm
computes `round((end_time - start_time) * 1000, 2)` and returns a structured
body, never raising.  On status 200: connected with no error message; on any
other status: `"HTTP {status}: {text}"`; on `httpx.RequestError`:
a connection-error message; on any other exception: an unknown-error
message. -/
def test_ollama_connectivity (start_time end_time : ℚ)
    (probe : UpstreamOutcome) : Except HTTPException OllamaConnectivityResponse :=
  let response_time_ms := round2 ((end_time - start_time) * 1000)
  match probe with
  | .response s text =>
      if s == 200 then
        .ok { connected := true, ollama_url := OLLAMA_BASE_URL,
              response_time_ms := some response_time_ms, error_message := none }
      else
        .ok { connected := false, ollama_url := OLLAMA_BASE_URL,
              response_time_ms := some response_time_ms,
              error_message := some ("HTTP " ++ toString s ++ ": " ++ text) }
  | .transportError msg =>
      .ok { connected := false, ollama_url := OLLAMA_BASE_URL,
            response_time_ms := some response_time_ms,
            error_message := some ("连接错误: " ++ msg) }
  | .otherError msg =>
      .ok { connected := false, ollama_url := OLLAMA_BASE_URL,
            response_time_ms := some response_time_ms,
            error_message := some ("未知错误: " ++ msg) }

/-- One entry of the upstream `/api/tags` listing as read by
`get_available_models`: the handler accesses the keys `name`, `size` and
`modified_at` with `dict.get`, so each is present or absent. -/
structure TagModelEntry where
  name : Option String
  size : Option String
  modified_at : Option String
  deriving Repr, DecidableEq

/-- The parsed JSON body of a successful upstream `/api/tags` response:
the `models` key is present (with an ordered list of entries) or absent. -/
structure TagsBody where
  models : Option (List TagModelEntry)
  deriving Repr, DecidableEq

/-- Embeds the response model `ModelInfo` (`src/main.py` lines 37-40). -/
structure ModelInfo where
  name : String
  size : Option String
  modified : Option String
  deriving Repr, DecidableEq

/-- Embeds the response model `ModelsResponse` (`src/main.py` lines 43-45). -/
structure ModelsResponse where
  models : List ModelInfo
  count : Nat
  deriving Repr, DecidableEq

/-- Outcome of the upstream exchange made by `get_available_models`:
`raise_for_status()` turns an error status into an `httpx.HTTPStatusError`
carrying the status code and body text; otherwise the JSON body is parsed.
`httpx.RequestError` and the generic `except Exception` arm are the other
two cases. -/
inductive TagsOutcome where
  | success (body : TagsBody)
  | httpStatusError (status : Nat) (text : String)
  | requestError (msg : String)
  | otherError (msg : String)
  deriving Repr, DecidableEq

/-- Embeds the `for model_data in ollama_data["models"]` loop of
`get_available_models` (`src/main.py` lines 159-166): start from the empty
list and append one `ModelInfo` per entry, reading `name` with default
`"unknown"`, `size` with default absent, and `modified_at` into `modified`. -/
def parse_tag_entries (entries : List TagModelEntry) : List ModelInfo :=
  entries.foldl
    (fun acc m =>
      acc ++ [{ name := m.name.getD "unknown", size := m.size,
                modified := m.modified_at }])
    []

/-- Embeds `get_available_models` (`src/main.py` lines 145-186).  On success
the `models` key is extracted when present (absent means no loop iterations,
so the empty list) and `count = len(models)`; an `httpx.HTTPStatusError`
becomes an `HTTPException` with the upstream status and a detail embedding
status and body text; `httpx.RequestError` becomes 503; any other exception
becomes 500. -/
def get_available_models (outcome : TagsOutcome) :
    Except HTTPException ModelsResponse :=
  match outcome with
  | .success body =>
      let models :=
        match body.models with
        | some entries => parse_tag_entries entries
        | none => []
      .ok { models := models, count := models.length }
  | .httpStatusError s text =>
      .error { status_code := s,
               detail := "获取模型列表失败: " ++ toString s ++ " - " ++ text }
  | .requestError msg =>
      .error { status_code := 503, detail := "无法连接到 Ollama 服务: " ++ msg }
  | .otherError msg =>
      .error { status_code := 500,
               detail := "获取模型列表时发生内部错误: " ++ msg }

/-- Outcome of the upstream `GET /api/version` exchange made by
`get_ollama_version`: on success the JSON body (kept opaque, returned
verbatim), otherwise the same three failure arms as the other handlers. -/
inductive VersionOutcome where
  | success (body : String)
  | httpStatusError (status : Nat) (text : String)
  | requestError (msg : String)
  | otherError (msg : String)
  deriving Repr, DecidableEq

/-- Embeds `get_ollama_version` (`src/main.py` lines 188-212): the upstream
JSON body is returned verbatim on success; an `httpx.HTTPStatusError` maps to
the upstream status with status and body in the detail; `httpx.RequestError`
maps to 503; any other exception maps to 500. -/
def get_ollama_version (outcome : VersionOutcome) :
    Except HTTPException String :=
  match outcome with
  | .success body => .ok body
  | .httpStatusError s text =>
      .error { status_code := s,
               detail := "获取版本信息失败: " ++ toString s ++ " - " ++ text }
  | .requestError msg =>
      .error { status_code := 503, detail := "无法连接到 Ollama 服务: " ++ msg }
  | .otherError msg =>
      .error { status_code := 500,
               detail := "获取版本信息时发生内部错误: " ++ msg }

/-- Outcome of the upstream `DELETE /api/delete` exchange made by
`delete_model`: the success body carries no payload contract, so it is a bare
success; the failure arms are as in the other handlers. -/
inductive DeleteOutcome where
  | success
  | httpStatusError (status : Nat) (text : String)
  | requestError (msg : String)
  | otherError (msg : String)
  deriving Repr, DecidableEq

/-- Embeds `delete_model` (`src/main.py` lines 214-244): on success a
confirmation message embedding the model name; an `httpx.HTTPStatusError`
with status 404 maps to HTTP 404 with a detail embedding the model name;
any other `httpx.HTTPStatusError` maps to the upstream status with status
and body in the detail; `httpx.RequestError` maps to 503; any other
exception maps to 500. -/
def delete_model (model_name : String) (outcome : DeleteOutcome) :
    Except HTTPException String :=
  match outcome with
  | .success => .ok ("模型 '" ++ model_name ++ "' 删除成功")
  | .httpStatusError s text =>
      if s == 404 then
        .error { status_code := 404,
                 detail := "模型 '" ++ model_name ++ "' 未找到" }
      else
        .error { status_code := s,
                 detail := "删除模型失败: " ++ toString s ++ " - " ++ text }
  | .requestError msg =>
      .error { status_code := 503, detail := "无法连接到 Ollama 服务: " ++ msg }
  | .otherError msg =>
      .error { status_code := 500,
               detail := "删除模型时发生内部错误: " ++ msg }

/-! Helper lemmas shared by the claim theorems. -/

theorem foldl_append_singleton {α β : Type} (f : α → β) :
    ∀ (l : List α) (init : List β),
      l.foldl (fun acc m => acc ++ [f m]) init = init ++ l.map f
  | [], init => by simp
  | a :: l, init => by
      simpa using foldl_append_singleton f l (init ++ [f a])

theorem roundHalfEven_nonneg (q : ℚ) (h : 0 ≤ q) : 0 ≤ roundHalfEven q := by
  have hfloor : (0 : ℤ) ≤ ⌊q⌋ := Int.floor_nonneg.mpr h
  unfold roundHalfEven
  split
  · exact hfloor
  · split
    · omega
    · split
      · exact hfloor
      · omega

theorem round2_nonneg (q : ℚ) (h : 0 ≤ q) : 0 ≤ round2 q := by
  unfold round2
  have h1 : (0 : ℤ) ≤ roundHalfEven (q * 100) :=
    roundHalfEven_nonneg (q * 100) (by positivity)
  have h2 : (0 : ℚ) ≤ (roundHalfEven (q * 100) : ℚ) := by exact_mod_cast h1
  exact div_nonneg h2 (by norm_num)

/-! Claim theorems. -/

/-- Claim C1: the spec requires `generate_text` to issue an upstream
`POST /api/generate` and pass through `model`, `response` and `done` when the
upstream answers 200.  The code evaluated at the valid non-streaming request
of its own test suite shows it performs no upstream call and returns `None`
(which FastAPI cannot validate against `OllamaResponse`), so no passthrough
ever happens. -/
theorem c1_generate_stub_returns_none :
    generate_text { model := "test-model", prompt := "hi", stream := false }
      = .noneReturn := rfl

/-- Claim C2: on an upstream 404 the delete handler does return HTTP 404 with
a detail embedding the model name, but the generate handler evaluated at the
404-scenario request of its own test suite returns `None` without contacting
the upstream, so it can never return the required 404. -/
theorem c2_delete_404_embeds_name_generate_ignores_upstream :
    (∀ (name text : String), delete_model name (.httpStatusError 404 text)
        = .error { status_code := 404,
                   detail := "模型 '" ++ name ++ "' 未找到" })
    ∧ generate_text { model := "non-existent-model", prompt := "你好",
                      stream := false } = .noneReturn :=
  ⟨fun _ _ => rfl, rfl⟩

/-- Claim C3: the spec requires a 500 malformed-format failure when the
upstream returns 200 without the `response` key.  In the code, every
non-streaming generate request evaluates to `None` independently of any
upstream body — the result does not depend on upstream data at all — so the
required malformed-response check does not exist. -/
theorem c3_generate_independent_of_upstream_body (req : OllamaRequest)
    (h : req.stream = false) : generate_text req = .noneReturn := by
  simp [generate_text, h]

/-- Concrete instance of `c3_generate_independent_of_upstream_body` at the
malformed-response scenario request of the repository's test suite. -/
theorem c3_generate_independent_of_upstream_body_witness :
    generate_text { model := "test-model", prompt := "你好", stream := false }
      = .noneReturn :=
  c3_generate_independent_of_upstream_body
    { model := "test-model", prompt := "你好", stream := false } rfl

/-- Claim C4: for every request with `stream = true` the code returns a
contentless `StreamingResponse()` — neither chunked forwarding of upstream
output nor a clear "not supported" rejection. -/
theorem c4_stream_true_yields_empty_streaming_response (req : OllamaRequest)
    (h : req.stream = true) : generate_text req = .emptyStreamingResponse := by
  simp [generate_text, h]

/-- Concrete instance of `c4_stream_true_yields_empty_streaming_response`. -/
theorem c4_stream_true_yields_empty_streaming_response_witness :
    generate_text { model := "llama3", prompt := "hi", stream := true }
      = .emptyStreamingResponse :=
  c4_stream_true_yields_empty_streaming_response
    { model := "llama3", prompt := "hi", stream := true } rfl

/-- Claim C5: under every upstream condition (response with any status,
transport error, or any other exception), `health_check` returns HTTP 200
with `ollama_connected` true exactly on an upstream 200, and
`test_ollama_connectivity` returns HTTP 200 with `connected` true exactly on
an upstream 200 and an `error_message` present exactly on failure; neither
endpoint ever raises an `HTTPException`. -/
theorem c5_health_connectivity_never_fail (ts : String)
    (probe : UpstreamOutcome) (t0 t1 : ℚ) :
    health_check ts probe
      = .ok { status := "healthy", timestamp := ts,
              ollama_connected := probe.ok200, ollama_url := OLLAMA_BASE_URL }
    ∧ ∃ c, test_ollama_connectivity t0 t1 probe = .ok c
        ∧ c.connected = probe.ok200
        ∧ c.error_message.isSome = !probe.ok200 := by
  constructor
  · cases probe <;> rfl
  · cases probe with
    | response s text =>
        by_cases h : s = 200
        · subst h
          exact ⟨_, rfl, rfl, rfl⟩
        · refine ⟨{ connected := false, ollama_url := OLLAMA_BASE_URL,
                    response_time_ms := some (round2 ((t1 - t0) * 1000)),
                    error_message :=
                      some ("HTTP " ++ toString s ++ ": " ++ text) },
                  ?_, ?_, ?_⟩ <;>
            simp [test_ollama_connectivity, UpstreamOutcome.ok200, h]
    | transportError msg => exact ⟨_, rfl, rfl, rfl⟩
    | otherError msg => exact ⟨_, rfl, rfl, rfl⟩

/-- Claim C6: for an upstream non-404 error status (here 400), the models,
version and delete handlers all forward the upstream status code and embed
status and body text in the detail; the generate handler, however, returns
`None` without any upstream exchange, so it cannot forward anything. -/
theorem c6_non404_status_forwarded_except_generate :
    generate_text { model := "some-model", prompt := "你好", stream := false }
      = .noneReturn
    ∧ (∀ text : String, get_available_models (.httpStatusError 400 text)
        = .error { status_code := 400,
                   detail := "获取模型列表失败: 400 - " ++ text })
    ∧ (∀ text : String, get_ollama_version (.httpStatusError 400 text)
        = .error { status_code := 400,
                   detail := "获取版本信息失败: 400 - " ++ text })
    ∧ (∀ text : String, delete_model "some-model" (.httpStatusError 400 text)
        = .error { status_code := 400,
                   detail := "删除模型失败: 400 - " ++ text }) :=
  ⟨rfl, fun _ => rfl, fun _ => rfl, fun _ => rfl⟩

/-- Claim C7: a transport-level failure (an `httpx.RequestError` with any
message) makes the models, version and delete handlers return HTTP 503 with
a connection-error indicator and the underlying error text in the detail;
the generate handler, however, never reaches the upstream at all and returns
`None` for every non-streaming request. -/
theorem c7_transport_failure_maps_to_503_except_generate :
    generate_text { model := "any-model", prompt := "hello", stream := false }
      = .noneReturn
    ∧ (∀ msg : String, get_available_models (.requestError msg)
        = .error { status_code := 503,
                   detail := "无法连接到 Ollama 服务: " ++ msg })
    ∧ (∀ msg : String, get_ollama_version (.requestError msg)
        = .error { status_code := 503,
                   detail := "无法连接到 Ollama 服务: " ++ msg })
    ∧ (∀ msg : String, delete_model "m" (.requestError msg)
        = .error { status_code := 503,
                   detail := "无法连接到 Ollama 服务: " ++ msg }) :=
  ⟨rfl, fun _ => rfl, fun _ => rfl, fun _ => rfl⟩

/-- Claim C8: on a successful upstream tag listing, the models handler maps a
missing `models` array to the empty sequence, maps each entry with `name`
defaulting to "unknown", `size` passed through, and `modified_at` renamed to
`modified`, preserves upstream ordering (the result is the entrywise map of
the upstream list), and returns `count` equal to the length of the returned
sequence. -/
theorem c8_models_mapping_preserves_order_and_count (body : TagsBody) :
    ∃ r, get_available_models (.success body) = .ok r
      ∧ r.models = (body.models.getD []).map
          (fun m => { name := m.name.getD "unknown", size := m.size,
                      modified := m.modified_at })
      ∧ r.count = r.models.length := by
  refine ⟨_, rfl, ?_, rfl⟩
  cases body with
  | mk ms =>
      cases ms with
      | none => rfl
      | some entries =>
          simpa [parse_tag_entries] using
            foldl_append_singleton
              (fun m : TagModelEntry =>
                ({ name := m.name.getD "unknown", size := m.size,
                   modified := m.modified_at } : ModelInfo))
              entries []

/-- Claim C9: on every probe outcome, the connectivity handler returns a body
whose `response_time_ms` is present, equals the elapsed time between the two
clock samples converted to milliseconds and rounded to 2 decimal places, is
non-negative when the clock does not run backwards, and is an integer number
of hundredths. -/
theorem c9_response_time_present_nonneg_rounded (t0 t1 : ℚ)
    (probe : UpstreamOutcome) (h : t0 ≤ t1) :
    ∃ c, test_ollama_connectivity t0 t1 probe = .ok c
      ∧ c.response_time_ms = some (round2 ((t1 - t0) * 1000))
      ∧ 0 ≤ round2 ((t1 - t0) * 1000)
      ∧ ∃ n : ℤ, round2 ((t1 - t0) * 1000) * 100 = (n : ℚ) := by
  have hnn : 0 ≤ round2 ((t1 - t0) * 1000) := by
    apply round2_nonneg
    have : 0 ≤ t1 - t0 := by linarith
    positivity
  have hint : ∃ n : ℤ, round2 ((t1 - t0) * 1000) * 100 = (n : ℚ) := by
    refine ⟨roundHalfEven ((t1 - t0) * 1000 * 100), ?_⟩
    unfold round2
    field_simp
  cases probe with
  | response s text =>
      by_cases hs : s = 200
      · subst hs; exact ⟨_, rfl, rfl, hnn, hint⟩
      · refine ⟨{ connected := false, ollama_url := OLLAMA_BASE_URL,
                  response_time_ms := some (round2 ((t1 - t0) * 1000)),
                  error_message :=
                    some ("HTTP " ++ toString s ++ ": " ++ text) },
                ?_, rfl, hnn, hint⟩
        simp [test_ollama_connectivity, hs]
  | transportError msg => exact ⟨_, rfl, rfl, hnn, hint⟩
  | otherError msg => exact ⟨_, rfl, rfl, hnn, hint⟩

/-- Concrete instance of `c9_response_time_present_nonneg_rounded` on a
transport-error probe with a 1 millisecond elapsed time. -/
theorem c9_response_time_present_nonneg_rounded_witness :
    ∃ c, test_ollama_connectivity 0 (1/1000) (.transportError "refused") = .ok c
      ∧ c.response_time_ms = some (round2 ((1/1000 - 0) * 1000))
      ∧ 0 ≤ round2 ((1/1000 - 0) * 1000)
      ∧ ∃ n : ℤ, round2 ((1/1000 - 0) * 1000) * 100 = (n : ℚ) :=
  c9_response_time_present_nonneg_rounded 0 (1/1000)
    (.transportError "refused") (by norm_num)

/-- Claim C10: pydantic validation of the generate request body imposes no
non-emptiness constraint — any present `model` and `prompt` strings are
accepted, in particular both empty — and `stream` defaults to `false` when
absent. -/
theorem c10_validation_accepts_empty_model_and_prompt :
    (∀ (m p : String) (s : Option Bool),
        OllamaRequest.validate { model := some m, prompt := some p, stream := s }
          = .ok { model := m, prompt := p, stream := s.getD false })
    ∧ OllamaRequest.validate
        { model := some "", prompt := some "", stream := none }
        = .ok { model := "", prompt := "", stream := false } :=
  ⟨fun _ _ _ => rfl, rfl⟩
